import Mathlib

/-!
Verification of the Avellaneda–Stoikov market-making engine.

This file gives a shallow embedding of the core data structures and
operations of the repository (`data_collector.rs`, `data_loader.rs`,
`fill_handler_task.rs`, `bot_state.rs`, `market_maker.rs`,
`spread_calculator_task.rs`) and proves properties about them.

Modelling conventions:
* Prices, quantities and durations are modelled as exact rationals `ℚ`
  (the Rust code computes with `f64`; every input considered in the
  concrete scenarios is exactly representable, and the structural
  properties proved here do not depend on rounding).
* The Avellaneda–Stoikov spread formulas (which use `ln`) are modelled
  over the reals `ℝ`.
* String-encoded numeric fields of WebSocket payloads (`p`, `q`, ...)
  are modelled as their parsed numeric values.
* `std::time::Instant` values are modelled as natural numbers; file
  handles, buffering and I/O errors are outside the model: a CSV file is
  modelled as the list of records appended to it.
-/

/-! ## Orderbook state machine (`src/data_collector.rs`) -/

/-- `MIN_QUANTITY_THRESHOLD` from `data_collector.rs` (`1e-9`): levels at
or below this quantity are treated as zero and removed. -/
def MIN_QUANTITY_THRESHOLD : ℚ := 1 / 1000000000

/-- One `{p, q}` level of a WebSocket orderbook message (`WsPriceLevel`
in `types.rs`), with the string fields already parsed. -/
structure WsPriceLevel where
  p : ℚ
  q : ℚ
  deriving DecidableEq

/-- Payload of a WebSocket orderbook message (`WsOrderBookData`). -/
structure WsOrderBookData where
  m : String
  b : List WsPriceLevel
  a : List WsPriceLevel
  deriving DecidableEq

/-- A WebSocket orderbook message (`WsOrderBookMessage` in `types.rs`).
`message_type` is `"SNAPSHOT"` or `"DELTA"`/`"UPDATE"`. -/
structure WsOrderBookMessage where
  ts : ℕ
  message_type : String
  data : WsOrderBookData
  seq : ℕ
  deriving DecidableEq

/-- The orderbook state (`OrderbookState` in `data_collector.rs`).  The
two `BTreeMap`s are modelled as association lists kept sorted the way
the maps iterate: bids by strictly descending price, asks by strictly
ascending price. -/
structure OrderbookState where
  bids : List (ℚ × ℚ)
  asks : List (ℚ × ℚ)
  market : String
  seq : ℕ
  deriving DecidableEq

/-- `OrderbookState::new`. -/
def OrderbookState.new (market : String) : OrderbookState :=
  { bids := [], asks := [], market := market, seq := 0 }

/-- Insert (or replace) a level on the bid side, keeping the list sorted
by strictly descending price (`BTreeMap<Reverse<OrderedFloat>, f64>`). -/
def insertBid : List (ℚ × ℚ) → ℚ → ℚ → List (ℚ × ℚ)
  | [], p, q => [(p, q)]
  | (p0, q0) :: rest, p, q =>
    if p0 < p then (p, q) :: (p0, q0) :: rest
    else if p0 = p then (p, q) :: rest
    else (p0, q0) :: insertBid rest p q

/-- Insert (or replace) a level on the ask side, keeping the list sorted
by strictly ascending price (`BTreeMap<OrderedFloat, f64>`). -/
def insertAsk : List (ℚ × ℚ) → ℚ → ℚ → List (ℚ × ℚ)
  | [], p, q => [(p, q)]
  | (p0, q0) :: rest, p, q =>
    if p < p0 then (p, q) :: (p0, q0) :: rest
    else if p0 = p then (p, q) :: rest
    else (p0, q0) :: insertAsk rest p q

/-- Remove the level at price `p` (`BTreeMap::remove`). -/
def removeLevel (side : List (ℚ × ℚ)) (p : ℚ) : List (ℚ × ℚ) :=
  side.filter (fun lv => lv.1 ≠ p)

/-- Current quantity at price `p`, `0` if absent
(`self.bids.get(&key).copied().unwrap_or(0.0)`). -/
def getLevel (side : List (ℚ × ℚ)) (p : ℚ) : ℚ :=
  match side.find? (fun lv => lv.1 = p) with
  | some lv => lv.2
  | none => 0

/-- The bid branch of `OrderbookState::apply_update` for one level:
prices `≤ 0` are rejected; on SNAPSHOT the quantity is absolute, on
DELTA it is a change added to the current quantity; results `≤`
`MIN_QUANTITY_THRESHOLD` remove the level. -/
def applyBidLevel (isSnapshot : Bool) (bids : List (ℚ × ℚ)) (lv : WsPriceLevel) :
    List (ℚ × ℚ) :=
  if lv.p ≤ 0 then bids
  else if isSnapshot then
    if MIN_QUANTITY_THRESHOLD < lv.q then insertBid bids lv.p lv.q
    else removeLevel bids lv.p
  else
    let newQty := getLevel bids lv.p + lv.q
    if MIN_QUANTITY_THRESHOLD < newQty then insertBid bids lv.p newQty
    else removeLevel bids lv.p

/-- The ask branch of `OrderbookState::apply_update` for one level. -/
def applyAskLevel (isSnapshot : Bool) (asks : List (ℚ × ℚ)) (lv : WsPriceLevel) :
    List (ℚ × ℚ) :=
  if lv.p ≤ 0 then asks
  else if isSnapshot then
    if MIN_QUANTITY_THRESHOLD < lv.q then insertAsk asks lv.p lv.q
    else removeLevel asks lv.p
  else
    let newQty := getLevel asks lv.p + lv.q
    if MIN_QUANTITY_THRESHOLD < newQty then insertAsk asks lv.p newQty
    else removeLevel asks lv.p

/-- `OrderbookState::apply_update`: sets `seq` from the message and folds
the bid and ask levels over the two sides. -/
def apply_update (st : OrderbookState) (msg : WsOrderBookMessage) : OrderbookState :=
  let isSnapshot := msg.message_type == "SNAPSHOT"
  { st with
    seq := msg.seq
    bids := msg.data.b.foldl (applyBidLevel isSnapshot) st.bids
    asks := msg.data.a.foldl (applyAskLevel isSnapshot) st.asks }

/-- `OrderbookState::get_best_bid_ask`: first entry of each map, guarded
by the sanity check `best_bid > 0 && best_ask > 0 && best_bid < best_ask`. -/
def get_best_bid_ask (st : OrderbookState) : Option (ℚ × ℚ) :=
  match st.bids.head?, st.asks.head? with
  | some bb, some ba =>
    if 0 < bb.1 ∧ 0 < ba.1 ∧ bb.1 < ba.1 then some (bb.1, ba.1) else none
  | _, _ => none

/-! ## Full-orderbook depth CSV writer (`FullOrderbookCsvWriter`) -/

/-- One row of `orderbook_depth.csv`: timestamp, market, sequence and
`max_levels` pairs of (bid level, ask level), zero-padded. -/
structure DepthRow where
  ts : ℕ
  market : String
  seq : ℕ
  levels : List ((ℚ × ℚ) × (ℚ × ℚ))
  deriving DecidableEq

/-- Top-of-book extraction used by `write_full_orderbook`: filter tiny
quantities, then take the first `maxLevels` entries of the sorted map. -/
def topLevels (maxLevels : ℕ) (side : List (ℚ × ℚ)) : List (ℚ × ℚ) :=
  (side.filter (fun lv => MIN_QUANTITY_THRESHOLD < lv.2)).take maxLevels

/-- Row padding: level `i` of the row is the `i`-th bid/ask level or
`(0, 0)` when the side has fewer than `maxLevels` levels. -/
def padLevels (maxLevels : ℕ) (bids asks : List (ℚ × ℚ)) :
    List ((ℚ × ℚ) × (ℚ × ℚ)) :=
  (List.range maxLevels).map (fun i => (bids.getD i (0, 0), asks.getD i (0, 0)))

/-- In-memory state of `FullOrderbookCsvWriter`: the duplicate-sequence
guard `last_seq`, the relevant `CollectorState` fields, the maintained
`OrderbookState` and the rows appended to `orderbook_depth.csv`. -/
structure FullOrderbookCsvWriter where
  market : String
  max_levels : ℕ
  last_seq : Option ℕ
  last_orderbook_seq : Option ℕ
  last_orderbook_timestamp : Option ℕ
  orderbook_updates_count : ℕ
  orderbook_state : Option OrderbookState
  rows : List DepthRow
  deriving DecidableEq

/-- The duplicate/out-of-order sequence check of the CSV writers:
`msg.seq <= prev_seq` for a previously seen sequence. -/
def staleSeq (lastSeq : Option ℕ) (s : ℕ) : Bool :=
  match lastSeq with
  | some prev => s ≤ prev
  | none => false

/-- The out-of-order timestamp check of the CSV writers:
`msg.ts < last_ts` for a previously recorded timestamp. -/
def staleTs (lastTs : Option ℕ) (t : ℕ) : Bool :=
  match lastTs with
  | some last => t < last
  | none => false

/-- `FullOrderbookCsvWriter::write_full_orderbook`: drop stale sequences
and out-of-order timestamps; otherwise apply the update to the
maintained orderbook, and append a padded top-`max_levels` row unless a
side is empty. -/
def write_full_orderbook (w : FullOrderbookCsvWriter) (msg : WsOrderBookMessage) :
    FullOrderbookCsvWriter :=
  if staleSeq w.last_seq msg.seq then w
  else if staleTs w.last_orderbook_timestamp msg.ts then w
  else
    let ob := apply_update ((w.orderbook_state).getD (OrderbookState.new w.market)) msg
    let bids := topLevels w.max_levels ob.bids
    let asks := topLevels w.max_levels ob.asks
    if bids.isEmpty || asks.isEmpty then
      { w with
        orderbook_state := some ob,
        last_seq := some msg.seq,
        last_orderbook_seq := some msg.seq,
        last_orderbook_timestamp := some msg.ts }
    else
      let row : DepthRow :=
        { ts := msg.ts, market := msg.data.m, seq := msg.seq,
          levels := padLevels w.max_levels bids asks }
      { w with
        orderbook_state := some ob,
        rows := w.rows ++ [row],
        last_seq := some msg.seq,
        last_orderbook_seq := some msg.seq,
        last_orderbook_timestamp := some msg.ts,
        orderbook_updates_count := w.orderbook_updates_count + 1 }

/-! ## Trades CSV writer (`TradesCsvWriter`) -/

/-- A public trade from the trades WebSocket stream (`PublicTrade` in
`types.rs`), with `p`/`q` already parsed. -/
structure PublicTrade where
  m : String
  s : String
  tt : String
  t : ℕ
  p : ℚ
  q : ℚ
  i : ℤ
  deriving DecidableEq

/-- In-memory state of `TradesCsvWriter`: the seen-ID set, the relevant
`CollectorState` fields, and the rows appended to `trades.csv` (a row is
modelled as the trade record it serializes). -/
structure TradesCsvWriter where
  seen_trade_ids : List ℤ
  last_trade_id : Option ℤ
  last_trade_timestamp : Option ℕ
  trades_count : ℕ
  rows : List PublicTrade
  deriving DecidableEq

/-- `TradesCsvWriter::write_trade`: skip when the trade ID was already
seen or the timestamp is before the last recorded one; otherwise append
the row and update the dedup state.  Flush timing and the periodic
`state.json` persistence are I/O concerns outside the model; all paths
return `Ok`. -/
def write_trade (w : TradesCsvWriter) (trade : PublicTrade) : TradesCsvWriter :=
  if trade.i ∈ w.seen_trade_ids then w
  else if staleTs w.last_trade_timestamp trade.t then w
  else
    { w with
      seen_trade_ids := trade.i :: w.seen_trade_ids,
      last_trade_id := some trade.i,
      last_trade_timestamp := some trade.t,
      trades_count := w.trades_count + 1,
      rows := w.rows ++ [trade] }

/-! ## Fill handler and ping-pong state
(`src/fill_handler_task.rs`, `src/bot_state.rs`) -/

/-- `PingPongMode` from `bot_state.rs`. -/
inductive PingPongMode where
  | NeedBuy
  | NeedSell
  deriving DecidableEq

/-- `OrderSide` from `types.rs`. -/
inductive OrderSide where
  | Buy
  | Sell
  deriving DecidableEq

/-- `OrderStatus` from `types.rs`. -/
inductive OrderStatus where
  | New
  | PartiallyFilled
  | Filled
  | Cancelled
  | Rejected
  | Expired
  deriving DecidableEq

/-- An order report on the account WebSocket stream (`WsOrder` in
`types.rs`): only the fields the fill handler reads are modelled
(`qty`/`filled_qty` are parsed; the remaining fields - ids, prices,
flags, times - are only logged or never read there). -/
structure WsOrder where
  external_id : String
  market : String
  side : OrderSide
  status : OrderStatus
  qty : ℚ
  filled_qty : ℚ
  deriving DecidableEq

/-- `PingPongState` from `bot_state.rs`; `order_placed_at` (an
`Instant`) is modelled as a natural number. -/
structure PingPongState where
  mode : PingPongMode
  current_order_id : Option String
  current_position : ℚ
  order_placed_at_mid : Option ℚ
  order_placed_at : Option ℕ
  deriving DecidableEq

/-- `BotState::clear_ping_pong_order`. -/
def clear_ping_pong_order (s : PingPongState) : PingPongState :=
  { s with current_order_id := none, order_placed_at_mid := none,
           order_placed_at := none }

/-- `BotState::switch_ping_pong_mode`. -/
def switch_ping_pong_mode (s : PingPongState) : PingPongState :=
  { s with mode := match s.mode with
      | PingPongMode.NeedBuy => PingPongMode.NeedSell
      | PingPongMode.NeedSell => PingPongMode.NeedBuy }

/-- `handle_order_filled` from `fill_handler_task.rs`: on a fill report
the tracked order is cleared and the mode flipped, but only when the
reported side agrees with the current mode. -/
def handle_order_filled (order : WsOrder) (s : PingPongState) : PingPongState :=
  match s.mode with
  | PingPongMode.NeedBuy =>
    if order.side = OrderSide.Buy then
      switch_ping_pong_mode (clear_ping_pong_order s)
    else s
  | PingPongMode.NeedSell =>
    if order.side = OrderSide.Sell then
      switch_ping_pong_mode (clear_ping_pong_order s)
    else s

/-- `handle_order_cancelled` from `fill_handler_task.rs`. -/
def handle_order_cancelled (_order : WsOrder) (s : PingPongState) : PingPongState :=
  clear_ping_pong_order s

/-- Processing of one order report inside the `AccountUpdate::Orders`
arm of `run_fill_handler_task`: ignore other markets and orders that are
not the tracked one, then dispatch on the status. -/
def process_order (config_market : String) (s : PingPongState) (order : WsOrder) :
    PingPongState :=
  if order.market ≠ config_market then s
  else if s.current_order_id ≠ some order.external_id then s
  else
    match order.status with
    | OrderStatus.Filled => handle_order_filled order s
    | OrderStatus.PartiallyFilled => handle_order_filled order s
    | OrderStatus.Cancelled => handle_order_cancelled order s
    | OrderStatus.Rejected => handle_order_cancelled order s
    | OrderStatus.Expired => handle_order_cancelled order s
    | OrderStatus.New => s

/-- The `AccountUpdate::Orders(orders)` arm: the reports are processed
sequentially. -/
def process_orders_update (config_market : String) (s : PingPongState)
    (orders : List WsOrder) : PingPongState :=
  orders.foldl (process_order config_market) s

/-! ## Rolling window (`src/data_loader.rs`) -/

/-- `OrderbookSnapshot` from `data_loader.rs` (one row of
`orderbook.csv`). -/
structure OrderbookSnapshot where
  timestamp_ms : ℤ
  datetime : String
  market : String
  seq : ℕ
  bid_price : ℚ
  bid_quantity : ℚ
  ask_price : ℚ
  ask_quantity : ℚ
  mid_price : ℚ
  spread : ℚ
  spread_bps : ℚ
  deriving DecidableEq

/-- `TradeEvent` from `data_loader.rs` (one row of `trades.csv`). -/
structure TradeEvent where
  timestamp_ms : ℤ
  datetime : String
  market : String
  side : String
  price : ℚ
  quantity : ℚ
  trade_id : ℤ
  trade_type : String
  deriving DecidableEq

/-- `RollingWindow` from `data_loader.rs`.  The two `VecDeque`s are
modelled as lists (`push_back` appends, `pop_front` drops the head). -/
structure RollingWindow where
  orderbooks : List OrderbookSnapshot
  trades : List TradeEvent
  window_duration_sec : ℚ
  start_time : Option ℤ
  end_time : Option ℤ
  deriving DecidableEq

/-- `RollingWindow::new`. -/
def RollingWindow.new (window_duration_sec : ℚ) : RollingWindow :=
  { orderbooks := [], trades := [], window_duration_sec := window_duration_sec,
    start_time := none, end_time := none }

/-- The Rust `as i64` cast of `window_duration_sec * 1000.0`: truncation
toward zero. -/
def i64OfRat (q : ℚ) : ℤ :=
  if 0 ≤ q then ⌊q⌋ else ⌈q⌉

/-- `RollingWindow::update_time_bounds`. -/
def update_time_bounds (w : RollingWindow) (timestamp : ℤ) : RollingWindow :=
  let w1 := if w.start_time = none then { w with start_time := some timestamp } else w
  match w1.end_time with
  | none => { w1 with end_time := some timestamp }
  | some e => if e < timestamp then { w1 with end_time := some timestamp } else w1

/-- `RollingWindow::trim_to_window`: pop entries from the front of each
deque while they are older than `end_time - (window_duration_sec *
1000.0) as i64`, then recompute `start_time`. -/
def trim_to_window (w : RollingWindow) : RollingWindow :=
  match w.end_time with
  | none => w
  | some endTime =>
    let cutoff := endTime - i64OfRat (w.window_duration_sec * 1000)
    let obs := w.orderbooks.dropWhile (fun ob => ob.timestamp_ms < cutoff)
    let trs := w.trades.dropWhile (fun tr => tr.timestamp_ms < cutoff)
    let newStart : Option ℤ :=
      match obs.head? with
      | some ob => some ob.timestamp_ms
      | none => trs.head?.map (fun tr => tr.timestamp_ms)
    { w with orderbooks := obs, trades := trs, start_time := newStart }

/-- `RollingWindow::add_orderbook`: push, update bounds, auto-trim. -/
def add_orderbook (w : RollingWindow) (snapshot : OrderbookSnapshot) : RollingWindow :=
  trim_to_window
    (update_time_bounds { w with orderbooks := w.orderbooks ++ [snapshot] }
      snapshot.timestamp_ms)

/-- `RollingWindow::add_trade`: push, update bounds, auto-trim. -/
def add_trade (w : RollingWindow) (trade : TradeEvent) : RollingWindow :=
  trim_to_window
    (update_time_bounds { w with trades := w.trades ++ [trade] }
      trade.timestamp_ms)

/-! ## Avellaneda–Stoikov spread computation
(`src/market_maker.rs`, `src/spread_calculator_task.rs`)

The `f64` arithmetic of the source is modelled over `ℝ` (and the tick
snapping generically over any linear ordered field with a floor, so the
same definition also serves exact evaluation over `ℚ`). -/

/-- `snap_price_to_ticks` from `market_maker.rs`: round `price` to a
multiple of `tick_size`, up or down; non-positive tick sizes leave the
price unchanged. -/
def snap_price_to_ticks {α : Type} [LinearOrderedField α] [FloorRing α]
    (price tick_size : α) (round_up : Bool) : α :=
  if tick_size ≤ 0 then price
  else if round_up then (⌈price / tick_size⌉ : α) * tick_size
  else (⌊price / tick_size⌋ : α) * tick_size

/-- `build_quotes_with_ticks` from `market_maker.rs`: bid rounded down,
ask rounded up; if the snapped ask is not above the snapped bid, the ask
becomes `bid + tick_size`. -/
def build_quotes_with_ticks {α : Type} [LinearOrderedField α] [FloorRing α]
    (mid_price half_spread tick_size : α) : α × α :=
  let raw_bid := mid_price - half_spread
  let raw_ask := mid_price + half_spread
  let bid := snap_price_to_ticks raw_bid tick_size false
  let ask := snap_price_to_ticks raw_ask tick_size true
  if ask ≤ bid then (bid, bid + tick_size) else (bid, ask)

/-- `compute_optimal_half_spread` from `market_maker.rs`:
`(1/γ)·ln(1 + γ/k) + 0.5·γ·σ²·T`, with an early `0` return for
non-positive `γ` or `k`. -/
noncomputable def compute_optimal_half_spread (gamma k sigma horizon_sec : ℝ) : ℝ :=
  if gamma ≤ 0 ∨ k ≤ 0 then 0
  else (1 / gamma) * Real.log (1 + gamma / k) + 0.5 * gamma * sigma ^ 2 * horizon_sec

/-- `compute_reservation_price` from `market_maker.rs`:
`r = S - q·γ·σ²·(T - t)`. -/
noncomputable def compute_reservation_price
    (mid_price inventory gamma sigma time_remaining_sec : ℝ) : ℝ :=
  mid_price - inventory * gamma * sigma ^ 2 * time_remaining_sec

/-- `MarketParameters` from `market_maker.rs`. -/
structure MarketParameters where
  volatility : ℝ
  trading_intensity : ℝ
  avg_spread : ℝ
  avg_spread_bps : ℝ
  spread_std : ℝ
  num_orderbooks : ℕ
  num_trades : ℕ
  window_duration_sec : ℝ

/-- `SpreadCalculation` from `market_maker.rs`. -/
structure SpreadCalculation where
  gamma : ℝ
  inventory : ℝ
  reservation_price : ℝ
  bid_spread : ℝ
  ask_spread : ℝ
  total_spread : ℝ
  mid_price : ℝ
  bid_price : ℝ
  ask_price : ℝ

/-- `compute_spread_for_gamma` from `market_maker.rs`: reservation price
plus a symmetric half-spread on both sides. -/
noncomputable def compute_spread_for_gamma (params : MarketParameters)
    (gamma inventory time_horizon_sec current_mid : ℝ) : SpreadCalculation :=
  let reservation_price :=
    compute_reservation_price current_mid inventory gamma params.volatility
      time_horizon_sec
  let half_spread :=
    compute_optimal_half_spread gamma params.trading_intensity params.volatility
      time_horizon_sec
  { gamma := gamma, inventory := inventory, reservation_price := reservation_price,
    bid_spread := half_spread, ask_spread := half_spread,
    total_spread := half_spread + half_spread, mid_price := current_mid,
    bid_price := reservation_price - half_spread,
    ask_price := reservation_price + half_spread }

/-- The published half-spread for a given gamma: the
`(calc.bid_spread + calc.ask_spread) / 2` expression of
`calculate_spreads` in `spread_calculator_task.rs`. -/
noncomputable def half_spread_for (params : MarketParameters)
    (gamma time_horizon_sec current_mid : ℝ) : ℝ :=
  let spreadCalc := compute_spread_for_gamma params gamma 0 time_horizon_sec current_mid
  (spreadCalc.bid_spread + spreadCalc.ask_spread) / 2

/-- `SpreadState` from `bot_state.rs` (`calculated_at`, an `Instant`, is
wall-clock metadata and is not modelled). -/
structure SpreadState where
  bid_price : ℝ
  ask_price : ℝ
  reservation_price : ℝ
  half_spread : ℝ
  gamma_used : ℝ

/-- The gamma auto-adjustment loop of `calculate_spreads`
(`spread_calculator_task.rs`): while the half-spread is below the
minimum-spread floor and `gamma < 1.0`, double gamma and recompute.  The
loop is modelled with an explicit fuel parameter; any fuel with
`1 ≤ 2 ^ fuel * gamma` is enough for the loop to reach its exit
condition. -/
noncomputable def adjust_gamma (params : MarketParameters)
    (time_horizon_sec current_mid min_spread_dollars : ℝ) : ℕ → ℝ → ℝ
  | 0, gamma => gamma
  | fuel + 1, gamma =>
    if half_spread_for params gamma time_horizon_sec current_mid < min_spread_dollars
        ∧ gamma < 1 then
      adjust_gamma params time_horizon_sec current_mid min_spread_dollars fuel
        (2 * gamma)
    else gamma

/-- The spread-calculation part of one `calculate_spreads` tick
(`spread_calculator_task.rs`), after the market parameters and the
current mid have been obtained: apply the minimum-spread floor with the
gamma-doubling loop, snap to ticks, run the sanity checks, and publish a
`SpreadState` (`none` models the error return that skips the tick). -/
noncomputable def calculate_spreads_core (params : MarketParameters)
    (gamma0 time_horizon_sec current_mid min_spread_bps tick_size : ℝ)
    (fuel : ℕ) : Option SpreadState :=
  let min_spread_dollars := current_mid * (min_spread_bps / 10000)
  let gamma :=
    adjust_gamma params time_horizon_sec current_mid min_spread_dollars fuel gamma0
  let spreadCalc := compute_spread_for_gamma params gamma 0 time_horizon_sec current_mid
  let half_spread := (spreadCalc.bid_spread + spreadCalc.ask_spread) / 2
  let ba := build_quotes_with_ticks spreadCalc.reservation_price half_spread tick_size
  if ba.2 ≤ ba.1 then none
  else if ba.1 ≤ 0 ∨ ba.2 ≤ 0 then none
  else
    some { bid_price := ba.1, ask_price := ba.2,
           reservation_price := spreadCalc.reservation_price,
           half_spread := half_spread, gamma_used := gamma }

/-! ## Concrete scenarios used by the theorems below -/

/-- Scenario 1 snapshot message:
`{SNAPSHOT, seq=1, bids=[(100,1.0),(99,2.0)], asks=[(101,1.0),(102,3.0)]}`. -/
def c1SnapshotMsg : WsOrderBookMessage :=
  { ts := 1000, message_type := "SNAPSHOT", seq := 1,
    data := { m := "X-USD", b := [⟨100, 1⟩, ⟨99, 2⟩], a := [⟨101, 1⟩, ⟨102, 3⟩] } }

/-- Scenario 1 delta message:
`{DELTA, seq=2, bids=[(100,-1.0),(98,0.5)], asks=[(101,0.0)]}`. -/
def c1DeltaMsg : WsOrderBookMessage :=
  { ts := 2000, message_type := "DELTA", seq := 2,
    data := { m := "X-USD", b := [⟨100, -1⟩, ⟨98, 1/2⟩], a := [⟨101, 0⟩] } }

/-- The book after applying the scenario 1 snapshot then delta to an
empty `OrderbookState`. -/
def c1FinalBook : OrderbookState :=
  apply_update (apply_update (OrderbookState.new ("X-USD")) c1SnapshotMsg) c1DeltaMsg

/-- A plain one-level snapshot: bid 99, ask 100. -/
def c5BaseMsg : WsOrderBookMessage :=
  { ts := 1000, message_type := "SNAPSHOT", seq := 1,
    data := { m := "X-USD", b := [⟨99, 1⟩], a := [⟨100, 1⟩] } }

/-- A delta that adds a bid at 101, crossing the resting ask at 100. -/
def c5CrossMsg : WsOrderBookMessage :=
  { ts := 2000, message_type := "DELTA", seq := 2,
    data := { m := "X-USD", b := [⟨101, 1⟩], a := [] } }

/-- A delta that removes the crossing bid again. -/
def c5RestoreMsg : WsOrderBookMessage :=
  { ts := 3000, message_type := "DELTA", seq := 3,
    data := { m := "X-USD", b := [⟨101, -1⟩], a := [] } }

/-- The crossed book: best bid 101 above best ask 100. -/
def c5CrossedBook : OrderbookState :=
  apply_update (apply_update (OrderbookState.new ("X-USD")) c5BaseMsg) c5CrossMsg

/-- The book after the crossing bid is removed by a later update. -/
def c5RestoredBook : OrderbookState :=
  apply_update c5CrossedBook c5RestoreMsg

/-- A small orderbook at sequence number 5. -/
def c6Book : OrderbookState :=
  { bids := [(99, 1)], asks := [(100, 1)], market := "X-USD", seq := 5 }

/-- A depth-CSV writer whose maintained book is `c6Book` and whose
duplicate guard has recorded sequence 5. -/
def c6Writer : FullOrderbookCsvWriter :=
  { market := "X-USD", max_levels := 2, last_seq := some 5,
    last_orderbook_seq := some 5, last_orderbook_timestamp := some 1000,
    orderbook_updates_count := 1, orderbook_state := some c6Book, rows := [] }

/-- A stale delta with sequence 4 (not above the recorded 5). -/
def c6StaleMsg : WsOrderBookMessage :=
  { ts := 900, message_type := "DELTA", seq := 4,
    data := { m := "X-USD", b := [⟨99, 5⟩], a := [⟨100, 5⟩] } }

/-- Ping-pong state in `NeedBuy` mode tracking order `E1`
(scenario 4: the order was placed at bid 99.88). -/
def c7State : PingPongState :=
  { mode := PingPongMode.NeedBuy, current_order_id := some "E1",
    current_position := 0, order_placed_at_mid := some (9988/100),
    order_placed_at := some 0 }

/-- The scenario 4 fill report: `E1`, `PartiallyFilled`, side BUY. -/
def c7BuyFill : WsOrder :=
  { external_id := "E1", market := "X-USD", side := OrderSide.Buy,
    status := OrderStatus.PartiallyFilled, qty := 1, filled_qty := 1/10 }

/-- A fill report for the tracked order `E1` carrying the opposite
(SELL) side while the mode is `NeedBuy`. -/
def c7SellFill : WsOrder :=
  { external_id := "E1", market := "X-USD", side := OrderSide.Sell,
    status := OrderStatus.Filled, qty := 1, filled_qty := 1 }

/-- A fresh trades writer with nothing recorded yet. -/
def c9Writer0 : TradesCsvWriter :=
  { seen_trade_ids := [], last_trade_id := none, last_trade_timestamp := none,
    trades_count := 0, rows := [] }

/-- The scenario 6 trade `{id: 42, ts: 1_700_000_000_123, ...}`. -/
def c9Trade : PublicTrade :=
  { m := "X-USD", s := "BUY", tt := "TRADE", t := 1700000000123,
    p := 100, q := 1/2, i := 42 }

/-- An orderbook snapshot row with the given timestamp (the remaining
fields are irrelevant to the rolling-window bookkeeping). -/
def mkSnapshot (ts : ℤ) : OrderbookSnapshot :=
  { timestamp_ms := ts, datetime := "", market := "X-USD", seq := 0,
    bid_price := 99, bid_quantity := 1, ask_price := 100, ask_quantity := 1,
    mid_price := 199/2, spread := 1, spread_bps := 100 }

/-- A trade event row with the given timestamp (the remaining fields
are irrelevant to the rolling-window bookkeeping). -/
def mkTrade (ts : ℤ) : TradeEvent :=
  { timestamp_ms := ts, datetime := "", market := "X-USD", side := "buy",
    price := 100, quantity := 1, trade_id := 7, trade_type := "TRADE" }

/-- A 1-second rolling window that received a snapshot at t=10000 ms and
then an out-of-order snapshot at t=5000 ms. -/
def c10Window : RollingWindow :=
  add_orderbook (add_orderbook (RollingWindow.new 1) (mkSnapshot 10000))
    (mkSnapshot 5000)

/-- A 1-second rolling window holding one snapshot at t=1000 ms. -/
def c10ChronoWindow : RollingWindow :=
  add_orderbook (RollingWindow.new 1) (mkSnapshot 1000)

/-- Degenerate market parameters (σ = 0, κ = 0) under which the
A–S half-spread evaluates to the early-return value 0. -/
noncomputable def c2Params : MarketParameters :=
  { volatility := 0, trading_intensity := 0, avg_spread := 0, avg_spread_bps := 0,
    spread_std := 0, num_orderbooks := 0, num_trades := 0, window_duration_sec := 0 }

/-- The spread state published by `calculate_spreads_core` on
`c2Params` with γ₀ = 1, T = 0, mid = 100, floor 5 bps, tick 1. -/
noncomputable def c2SpreadState : SpreadState :=
  { bid_price := 100, ask_price := 101, reservation_price := 100,
    half_spread := 0, gamma_used := 1 }


/-! ## Theorems -/

/-- Evaluation of the scenario 1 run: the final book after the snapshot
and the delta. -/
theorem c1FinalBook_eval :
    c1FinalBook =
      { bids := [(99, 2), (98, 1/2)], asks := [(101, 1), (102, 3)],
        market := "X-USD", seq := 2 } := by
  norm_num [c1FinalBook, c1SnapshotMsg, c1DeltaMsg, apply_update, applyBidLevel,
    applyAskLevel, insertBid, insertAsk, removeLevel, getLevel,
    MIN_QUANTITY_THRESHOLD, OrderbookState.new]
  decide

/-- C1 (counterexample): applying the scenario 1 snapshot and delta does
not produce best bid/ask `(99, 102)`: the DELTA level `(101, 0.0)` is a
zero change, so the ask at 101 survives and the best ask stays 101. -/
theorem c1_counterexample_zero_delta :
    get_best_bid_ask c1FinalBook ≠ some (99, 102) := by
  rw [c1FinalBook_eval]
  norm_num [get_best_bid_ask]

/-- C1 (amended): the scenario 1 snapshot followed by the delta yields
bids `{99: 2.0, 98: 0.5}` and asks `{101: 1.0, 102: 3.0}` (a DELTA
quantity of `0.0` is a zero change and leaves the level untouched), and
`get_best_bid_ask` then returns `(99, 101)`. -/
theorem c1_amended_snapshot_delta :
    c1FinalBook.bids = [(99, 2), (98, 1/2)] ∧
    c1FinalBook.asks = [(101, 1), (102, 3)] ∧
    get_best_bid_ask c1FinalBook = some (99, 101) ∧
    c1FinalBook.seq = 2 := by
  rw [c1FinalBook_eval]
  norm_num [get_best_bid_ask]

/-- Evaluation of the crossed book: the crossing bid at 101 is kept. -/
theorem c5CrossedBook_eval :
    c5CrossedBook =
      { bids := [(101, 1), (99, 1)], asks := [(100, 1)],
        market := "X-USD", seq := 2 } := by
  norm_num [c5CrossedBook, c5BaseMsg, c5CrossMsg, apply_update, applyBidLevel,
    applyAskLevel, insertBid, insertAsk, removeLevel, getLevel,
    MIN_QUANTITY_THRESHOLD, OrderbookState.new]

/-- Evaluation of the book after the crossing bid is removed. -/
theorem c5RestoredBook_eval :
    c5RestoredBook =
      { bids := [(99, 1)], asks := [(100, 1)], market := "X-USD", seq := 3 } := by
  unfold c5RestoredBook
  rw [c5CrossedBook_eval]
  norm_num [c5RestoreMsg, apply_update, applyBidLevel, applyAskLevel, insertBid,
    insertAsk, removeLevel, getLevel, MIN_QUANTITY_THRESHOLD]

/-- C5: whenever both sides of the book are non-empty, either the best
bid is strictly below the best ask or `get_best_bid_ask` returns `none`;
and concretely, an update that crosses the book is kept in the state
(the crossing bid level is stored), `get_best_bid_ask` returns `none`
while crossed, and returns a value again once a later update restores
the invariant. -/
theorem c5_crossed_book_masked :
    (∀ st : OrderbookState, st.bids ≠ [] → st.asks ≠ [] →
      ∃ bb ba, st.bids.head? = some bb ∧ st.asks.head? = some ba ∧
        (bb.1 < ba.1 ∨ get_best_bid_ask st = none)) ∧
    c5CrossedBook.bids = [(101, 1), (99, 1)] ∧
    c5CrossedBook.asks = [(100, 1)] ∧
    get_best_bid_ask c5CrossedBook = none ∧
    get_best_bid_ask c5RestoredBook = some (99, 100) := by
  refine ⟨?_, ?_, ?_, ?_, ?_⟩
  · intro st hb ha
    obtain ⟨bb, tb, hbe⟩ := List.exists_cons_of_ne_nil hb
    obtain ⟨ba, ta, hae⟩ := List.exists_cons_of_ne_nil ha
    refine ⟨bb, ba, by rw [hbe]; rfl, by rw [hae]; rfl, ?_⟩
    by_cases hc : 0 < bb.1 ∧ 0 < ba.1 ∧ bb.1 < ba.1
    · exact Or.inl hc.2.2
    · exact Or.inr (by simp [get_best_bid_ask, hbe, hae, hc])
  · rw [c5CrossedBook_eval]
  · rw [c5CrossedBook_eval]
  · rw [c5CrossedBook_eval]; norm_num [get_best_bid_ask]
  · rw [c5RestoredBook_eval]; norm_num [get_best_bid_ask]

/-- C5 (witness): the general statement applied to the concrete crossed
book, whose two sides are non-empty. -/
theorem c5_crossed_book_masked_witness :
    ∃ bb ba, c5CrossedBook.bids.head? = some bb ∧
      c5CrossedBook.asks.head? = some ba ∧
      (bb.1 < ba.1 ∨ get_best_bid_ask c5CrossedBook = none) :=
  c5_crossed_book_masked.1 c5CrossedBook
    (by rw [c5CrossedBook_eval]; simp) (by rw [c5CrossedBook_eval]; simp)

/-- C6: an out-of-order update whose sequence number is not above the
one recorded for the maintained orderbook state is dropped by
`write_full_orderbook`: the writer state - including the bids map, asks
map and sequence number of the maintained book - is left completely
unchanged. -/
theorem c6_stale_update_dropped (w : FullOrderbookCsvWriter)
    (msg : WsOrderBookMessage) (b : OrderbookState)
    (_hob : w.orderbook_state = some b) (hseq : w.last_seq = some b.seq)
    (hstale : msg.seq ≤ b.seq) :
    write_full_orderbook w msg = w := by
  have hs : staleSeq w.last_seq msg.seq = true := by
    rw [hseq]; simpa [staleSeq] using hstale
  unfold write_full_orderbook
  simp [hs]

/-- C6 (witness): a concrete stale message (sequence 4 against a book at
sequence 5) leaves the depth writer untouched. -/
theorem c6_stale_update_dropped_witness :
    write_full_orderbook c6Writer c6StaleMsg = c6Writer ∧
    c6StaleMsg.seq ≤ c6Book.seq :=
  ⟨c6_stale_update_dropped c6Writer c6StaleMsg c6Book rfl rfl (by decide),
   by decide⟩

/-- C7 (counterexample): a Filled report for the tracked order `E1` that
carries the opposite (SELL) side while the mode is `NeedBuy` does not
clear the tracked order and does not flip the mode: the fill handler
leaves the ping-pong state entirely unchanged. -/
theorem c7_counterexample_opposite_side_fill :
    c7SellFill.market = "X-USD" ∧
    c7State.current_order_id = some c7SellFill.external_id ∧
    c7SellFill.status = OrderStatus.Filled ∧
    process_order ("X-USD") c7State c7SellFill = c7State ∧
    ¬((process_order ("X-USD") c7State c7SellFill).current_order_id = none ∧
      (process_order ("X-USD") c7State c7SellFill).mode = PingPongMode.NeedSell) := by
  refine ⟨rfl, rfl, rfl, ?_, ?_⟩ <;>
    simp [process_order, handle_order_filled, c7State, c7SellFill]

/-- C7 (amended): when the fill handler processes an order report whose
market matches, whose external id equals the tracked ping-pong order,
whose status is Filled or PartiallyFilled, and whose side agrees with
the current mode (BUY while `NeedBuy`, SELL while `NeedSell`), it clears
the tracked order (`current_order_id`, `order_placed_at_mid`,
`order_placed_at` all become `none`) and flips the mode. -/
theorem c7_amended_fill_flips_on_matching_side :
    ∀ (cfg : String) (s : PingPongState) (order : WsOrder),
      order.market = cfg →
      s.current_order_id = some order.external_id →
      (order.status = OrderStatus.Filled ∨ order.status = OrderStatus.PartiallyFilled) →
      ((s.mode = PingPongMode.NeedBuy ∧ order.side = OrderSide.Buy) ∨
        (s.mode = PingPongMode.NeedSell ∧ order.side = OrderSide.Sell)) →
      process_order cfg s order = switch_ping_pong_mode (clear_ping_pong_order s) ∧
      (process_order cfg s order).current_order_id = none ∧
      (process_order cfg s order).order_placed_at_mid = none ∧
      (process_order cfg s order).order_placed_at = none ∧
      (process_order cfg s order).mode ≠ s.mode := by
  intro cfg s order hm hid hst hside
  have heq : process_order cfg s order = switch_ping_pong_mode (clear_ping_pong_order s) := by
    have hf : handle_order_filled order s = switch_ping_pong_mode (clear_ping_pong_order s) := by
      unfold handle_order_filled
      rcases hside with ⟨h1, h2⟩ | ⟨h1, h2⟩ <;> rw [h1] <;> simp [h2]
    unfold process_order
    rw [if_neg (by simp [hm]), if_neg (by simp [hid])]
    rcases hst with h | h <;> rw [h] <;> exact hf
  refine ⟨heq, ?_, ?_, ?_, ?_⟩ <;> rw [heq] <;>
    cases hmode : s.mode <;>
    simp [switch_ping_pong_mode, clear_ping_pong_order, hmode]

/-- C7 (witness): the scenario 4 run - mode `NeedBuy`, tracked order
`E1`, a `PartiallyFilled` BUY report for `E1` - leaves the tracked order
cleared and the mode flipped to `NeedSell`. -/
theorem c7_amended_fill_flips_on_matching_side_witness :
    process_order ("X-USD") c7State c7BuyFill =
      switch_ping_pong_mode (clear_ping_pong_order c7State) ∧
    (process_order ("X-USD") c7State c7BuyFill).current_order_id = none ∧
    (process_order ("X-USD") c7State c7BuyFill).order_placed_at_mid = none ∧
    (process_order ("X-USD") c7State c7BuyFill).order_placed_at = none ∧
    (process_order ("X-USD") c7State c7BuyFill).mode ≠ c7State.mode :=
  c7_amended_fill_flips_on_matching_side ("X-USD") c7State c7BuyFill rfl rfl
    (Or.inr rfl) (Or.inl ⟨rfl, rfl⟩)

/-- C8: for a Filled or PartiallyFilled report on the tracked order, the
fill handler flips the ping-pong state exactly when the reported side
agrees with the current mode; when the report carries the opposite side
the ping-pong state is left entirely unchanged. -/
theorem c8_flip_only_when_side_matches_mode :
    ∀ (cfg : String) (s : PingPongState) (order : WsOrder),
      order.market = cfg →
      s.current_order_id = some order.external_id →
      (order.status = OrderStatus.Filled ∨ order.status = OrderStatus.PartiallyFilled) →
      (((s.mode = PingPongMode.NeedBuy ∧ order.side = OrderSide.Sell) ∨
        (s.mode = PingPongMode.NeedSell ∧ order.side = OrderSide.Buy)) →
        process_order cfg s order = s) ∧
      (((s.mode = PingPongMode.NeedBuy ∧ order.side = OrderSide.Buy) ∨
        (s.mode = PingPongMode.NeedSell ∧ order.side = OrderSide.Sell)) →
        process_order cfg s order = switch_ping_pong_mode (clear_ping_pong_order s)) := by
  intro cfg s order hm hid hst
  have hred : process_order cfg s order = handle_order_filled order s := by
    unfold process_order
    rw [if_neg (by simp [hm]), if_neg (by simp [hid])]
    rcases hst with h | h <;> rw [h]
  constructor
  · intro hside
    rw [hred]
    unfold handle_order_filled
    rcases hside with ⟨h1, h2⟩ | ⟨h1, h2⟩ <;> rw [h1] <;> simp [h2]
  · intro hside
    rw [hred]
    unfold handle_order_filled
    rcases hside with ⟨h1, h2⟩ | ⟨h1, h2⟩ <;> rw [h1] <;> simp [h2]

/-- C8 (witness): with mode `NeedBuy` and tracked order `E1`, a SELL
fill report for `E1` leaves the state unchanged, while a BUY fill report
flips it. -/
theorem c8_flip_only_when_side_matches_mode_witness :
    process_order ("X-USD") c7State c7SellFill = c7State ∧
    process_order ("X-USD") c7State c7BuyFill =
      switch_ping_pong_mode (clear_ping_pong_order c7State) :=
  ⟨(c8_flip_only_when_side_matches_mode ("X-USD") c7State c7SellFill rfl rfl
      (Or.inl rfl)).1 (Or.inl ⟨rfl, rfl⟩),
   (c8_flip_only_when_side_matches_mode ("X-USD") c7State c7BuyFill rfl rfl
      (Or.inr rfl)).2 (Or.inl ⟨rfl, rfl⟩)⟩

/-- C9: writing a trade whose ID was already seen leaves the writer
(file rows, counters, dedup state) completely unchanged; consequently
writing the same fresh, in-order trade twice appends exactly one row and
increments `trades_count` exactly once over both calls. -/
theorem c9_write_trade_idempotent :
    (∀ (w : TradesCsvWriter) (t : PublicTrade),
      t.i ∈ w.seen_trade_ids → write_trade w t = w) ∧
    (∀ (w : TradesCsvWriter) (t : PublicTrade),
      t.i ∉ w.seen_trade_ids →
      staleTs w.last_trade_timestamp t.t = false →
      write_trade (write_trade w t) t = write_trade w t ∧
      (write_trade (write_trade w t) t).rows = w.rows ++ [t] ∧
      (write_trade (write_trade w t) t).trades_count = w.trades_count + 1) := by
  have hseen : ∀ (w : TradesCsvWriter) (t : PublicTrade),
      t.i ∈ w.seen_trade_ids → write_trade w t = w := by
    intro w t h
    unfold write_trade
    rw [if_pos h]
  refine ⟨hseen, ?_⟩
  intro w t h hts
  have h1 : write_trade w t =
      { w with
        seen_trade_ids := t.i :: w.seen_trade_ids,
        last_trade_id := some t.i,
        last_trade_timestamp := some t.t,
        trades_count := w.trades_count + 1,
        rows := w.rows ++ [t] } := by
    unfold write_trade
    rw [if_neg h]
    simp [hts]
  have h2 : write_trade (write_trade w t) t = write_trade w t :=
    hseen _ t (by rw [h1]; exact List.mem_cons_self _ _)
  rw [h2, h1]
  exact ⟨rfl, rfl, rfl⟩

/-- C9 (witness): the scenario 6 double write of trade id 42 on a fresh
writer appends one row and bumps the count once. -/
theorem c9_write_trade_idempotent_witness :
    write_trade (write_trade c9Writer0 c9Trade) c9Trade =
      write_trade c9Writer0 c9Trade ∧
    (write_trade (write_trade c9Writer0 c9Trade) c9Trade).rows =
      c9Writer0.rows ++ [c9Trade] ∧
    (write_trade (write_trade c9Writer0 c9Trade) c9Trade).trades_count =
      c9Writer0.trades_count + 1 :=
  c9_write_trade_idempotent.2 c9Writer0 c9Trade (by simp [c9Writer0]) rfl

/-- `update_time_bounds` never touches the orderbook deque. -/
theorem update_time_bounds_orderbooks (w : RollingWindow) (t : ℤ) :
    (update_time_bounds w t).orderbooks = w.orderbooks := by
  unfold update_time_bounds
  by_cases hs : w.start_time = none <;>
    simp only [hs, if_pos, if_neg, ite_true, ite_false] <;>
    cases he : w.end_time <;> simp [he] <;> split <;> rfl

/-- `update_time_bounds` never touches the trades deque. -/
theorem update_time_bounds_trades (w : RollingWindow) (t : ℤ) :
    (update_time_bounds w t).trades = w.trades := by
  unfold update_time_bounds
  by_cases hs : w.start_time = none <;>
    simp only [hs, if_pos, if_neg, ite_true, ite_false] <;>
    cases he : w.end_time <;> simp [he] <;> split <;> rfl

/-- `update_time_bounds` never touches the window duration. -/
theorem update_time_bounds_duration (w : RollingWindow) (t : ℤ) :
    (update_time_bounds w t).window_duration_sec = w.window_duration_sec := by
  unfold update_time_bounds
  by_cases hs : w.start_time = none <;>
    simp only [hs, if_pos, if_neg, ite_true, ite_false] <;>
    cases he : w.end_time <;> simp [he] <;> split <;> rfl

/-- After `update_time_bounds` the end bound is the max of the previous
bound and the new timestamp (the new timestamp alone when unset). -/
theorem update_time_bounds_end_time (w : RollingWindow) (t : ℤ) :
    (update_time_bounds w t).end_time =
      some (match w.end_time with
            | none => t
            | some e => max e t) := by
  unfold update_time_bounds
  by_cases hs : w.start_time = none <;>
    simp only [hs, if_pos, if_neg, ite_true, ite_false] <;>
    cases he : w.end_time <;> simp [he]
  · split
    · next h => simp [max_eq_right (le_of_lt h)]
    · next h => simp [he, max_eq_left (not_lt.mp h)]
  · split
    · next h => simp [max_eq_right (le_of_lt h)]
    · next h => simp [he, max_eq_left (not_lt.mp h)]

/-- What `trim_to_window` does when the end bound is set. -/
theorem trim_to_window_spec (w : RollingWindow) (T : ℤ)
    (hE : w.end_time = some T) :
    (trim_to_window w).orderbooks =
      w.orderbooks.dropWhile
        (fun ob => ob.timestamp_ms < T - i64OfRat (w.window_duration_sec * 1000)) ∧
    (trim_to_window w).trades =
      w.trades.dropWhile
        (fun tr => tr.timestamp_ms < T - i64OfRat (w.window_duration_sec * 1000)) ∧
    (trim_to_window w).end_time = some T ∧
    (trim_to_window w).window_duration_sec = w.window_duration_sec := by
  unfold trim_to_window
  rw [hE]
  exact ⟨rfl, rfl, rfl, rfl⟩

/-- `trim_to_window` never changes the end bound. -/
theorem trim_to_window_end_time (w : RollingWindow) :
    (trim_to_window w).end_time = w.end_time := by
  unfold trim_to_window
  cases he : w.end_time <;> simp [he]

/-- Every element surviving `dropWhile (timestamp < c)` of a list sorted
by non-decreasing timestamp is at or after `c`. -/
theorem dropWhile_lt_mem_ge {α : Type} (f : α → ℤ) (c : ℤ) :
    ∀ l : List α, l.Pairwise (fun a b => f a ≤ f b) →
      ∀ x ∈ l.dropWhile (fun a => f a < c), c ≤ f x := by
  intro l
  induction l with
  | nil => intro _ x hx; simp at hx
  | cons a t ih =>
    intro hp x hx
    rw [List.dropWhile_cons] at hx
    by_cases h : f a < c
    · rw [if_pos (by simpa using h)] at hx
      exact ih (List.Pairwise.of_cons hp) x hx
    · rw [if_neg (by simpa using h)] at hx
      have hfa : c ≤ f a := not_lt.mp h
      rcases List.mem_cons.mp hx with rfl | hx2
      · exact hfa
      · exact le_trans hfa (List.rel_of_pairwise_cons hp hx2)

/-- On a list sorted by non-decreasing timestamp, popping the stale
prefix removes exactly the stale elements. -/
theorem dropWhile_lt_eq_filter {α : Type} (f : α → ℤ) (c : ℤ) :
    ∀ l : List α, l.Pairwise (fun a b => f a ≤ f b) →
      l.dropWhile (fun a => f a < c) = l.filter (fun a => c ≤ f a) := by
  intro l
  induction l with
  | nil => intro _; rfl
  | cons a t ih =>
    intro hp
    rw [List.dropWhile_cons, List.filter_cons]
    by_cases h : f a < c
    · have h2 : ¬ c ≤ f a := not_le.mpr h
      rw [if_pos (by simpa using h), if_neg (by simpa using h2)]
      exact ih (List.Pairwise.of_cons hp)
    · have h2 : c ≤ f a := not_lt.mp h
      have hall : ∀ x ∈ t, (decide (c ≤ f x)) = true := fun x hx => by
        simpa using le_trans h2 (List.rel_of_pairwise_cons hp hx)
      rw [if_neg (by simpa using h), if_pos (by simpa using h2),
        List.filter_eq_self.mpr hall]

/-- For a chronological append (`end_time` at or before the new
timestamp), `add_orderbook` appends and then pops the front entries
older than the cutoff computed from the new timestamp. -/
theorem add_orderbook_components (w : RollingWindow) (snap : OrderbookSnapshot)
    (hend : w.end_time.getD snap.timestamp_ms ≤ snap.timestamp_ms) :
    (add_orderbook w snap).orderbooks =
      (w.orderbooks ++ [snap]).dropWhile
        (fun ob => ob.timestamp_ms <
          snap.timestamp_ms - i64OfRat (w.window_duration_sec * 1000)) ∧
    (add_orderbook w snap).trades =
      w.trades.dropWhile
        (fun tr => tr.timestamp_ms <
          snap.timestamp_ms - i64OfRat (w.window_duration_sec * 1000)) := by
  unfold add_orderbook update_time_bounds trim_to_window
  cases hE : w.end_time with
  | none =>
    by_cases hs : w.start_time = none <;> simp [hs, hE]
  | some e =>
    have he2 : e ≤ snap.timestamp_ms := by rw [hE] at hend; exact hend
    by_cases hl : e < snap.timestamp_ms
    · by_cases hs : w.start_time = none <;> simp [hs, hE, hl]
    · have he3 : e = snap.timestamp_ms := le_antisymm he2 (not_lt.mp hl)
      subst he3
      by_cases hs : w.start_time = none <;> simp [hs, hE, hl]

/-- For a chronological append (`end_time` at or before the new
timestamp), `add_trade` appends and then pops the front entries older
than the cutoff computed from the new timestamp. -/
theorem add_trade_components (w : RollingWindow) (trade : TradeEvent)
    (hend : w.end_time.getD trade.timestamp_ms ≤ trade.timestamp_ms) :
    (add_trade w trade).orderbooks =
      w.orderbooks.dropWhile
        (fun ob => ob.timestamp_ms <
          trade.timestamp_ms - i64OfRat (w.window_duration_sec * 1000)) ∧
    (add_trade w trade).trades =
      (w.trades ++ [trade]).dropWhile
        (fun tr => tr.timestamp_ms <
          trade.timestamp_ms - i64OfRat (w.window_duration_sec * 1000)) := by
  unfold add_trade update_time_bounds trim_to_window
  cases hE : w.end_time with
  | none =>
    by_cases hs : w.start_time = none <;> simp [hs, hE]
  | some e =>
    have he2 : e ≤ trade.timestamp_ms := by rw [hE] at hend; exact hend
    by_cases hl : e < trade.timestamp_ms
    · by_cases hs : w.start_time = none <;> simp [hs, hE, hl]
    · have he3 : e = trade.timestamp_ms := le_antisymm he2 (not_lt.mp hl)
      subst he3
      by_cases hs : w.start_time = none <;> simp [hs, hE, hl]

/-- C10 (amended): after every append - `add_orderbook` or `add_trade` -
the window's end time is `max(end_time_before, t)`; and provided the
appends so far were chronological (the deques are sorted by timestamp,
everything on the appended side is at or before the new timestamp, and
the end bound does not exceed it), every item remaining after the append
- orderbooks and trades - is within the window cutoff
`t - (window_duration_sec * 1000 ms)` and exactly the strictly older
items are removed.  A non-chronological append can leave older items in
the window because trimming only pops from the front. -/
theorem c10_amended_window_trim :
    (∀ (w : RollingWindow) (snap : OrderbookSnapshot),
      (add_orderbook w snap).end_time =
        some (match w.end_time with
              | none => snap.timestamp_ms
              | some e => max e snap.timestamp_ms)) ∧
    (∀ (w : RollingWindow) (trade : TradeEvent),
      (add_trade w trade).end_time =
        some (match w.end_time with
              | none => trade.timestamp_ms
              | some e => max e trade.timestamp_ms)) ∧
    (∀ (w : RollingWindow) (snap : OrderbookSnapshot),
      w.orderbooks.Pairwise (fun a b => a.timestamp_ms ≤ b.timestamp_ms) →
      w.trades.Pairwise (fun a b => a.timestamp_ms ≤ b.timestamp_ms) →
      (∀ ob ∈ w.orderbooks, ob.timestamp_ms ≤ snap.timestamp_ms) →
      w.end_time.getD snap.timestamp_ms ≤ snap.timestamp_ms →
      ((∀ ob ∈ (add_orderbook w snap).orderbooks,
          snap.timestamp_ms - i64OfRat (w.window_duration_sec * 1000) ≤
            ob.timestamp_ms) ∧
       (∀ tr ∈ (add_orderbook w snap).trades,
          snap.timestamp_ms - i64OfRat (w.window_duration_sec * 1000) ≤
            tr.timestamp_ms) ∧
       (add_orderbook w snap).orderbooks =
         (w.orderbooks ++ [snap]).filter
           (fun ob =>
             snap.timestamp_ms - i64OfRat (w.window_duration_sec * 1000) ≤
               ob.timestamp_ms) ∧
       (add_orderbook w snap).trades =
         w.trades.filter
           (fun tr =>
             snap.timestamp_ms - i64OfRat (w.window_duration_sec * 1000) ≤
               tr.timestamp_ms))) ∧
    (∀ (w : RollingWindow) (trade : TradeEvent),
      w.orderbooks.Pairwise (fun a b => a.timestamp_ms ≤ b.timestamp_ms) →
      w.trades.Pairwise (fun a b => a.timestamp_ms ≤ b.timestamp_ms) →
      (∀ tr ∈ w.trades, tr.timestamp_ms ≤ trade.timestamp_ms) →
      w.end_time.getD trade.timestamp_ms ≤ trade.timestamp_ms →
      ((∀ ob ∈ (add_trade w trade).orderbooks,
          trade.timestamp_ms - i64OfRat (w.window_duration_sec * 1000) ≤
            ob.timestamp_ms) ∧
       (∀ tr ∈ (add_trade w trade).trades,
          trade.timestamp_ms - i64OfRat (w.window_duration_sec * 1000) ≤
            tr.timestamp_ms) ∧
       (add_trade w trade).orderbooks =
         w.orderbooks.filter
           (fun ob =>
             trade.timestamp_ms - i64OfRat (w.window_duration_sec * 1000) ≤
               ob.timestamp_ms) ∧
       (add_trade w trade).trades =
         (w.trades ++ [trade]).filter
           (fun tr =>
             trade.timestamp_ms - i64OfRat (w.window_duration_sec * 1000) ≤
               tr.timestamp_ms))) := by
  refine ⟨?_, ?_, ?_, ?_⟩
  · intro w snap
    unfold add_orderbook
    rw [trim_to_window_end_time, update_time_bounds_end_time]
  · intro w trade
    unfold add_trade
    rw [trim_to_window_end_time, update_time_bounds_end_time]
  · intro w snap hpob hptr hob hend
    obtain ⟨ho, ht⟩ := add_orderbook_components w snap hend
    have hpall : (w.orderbooks ++ [snap]).Pairwise
        (fun a b => a.timestamp_ms ≤ b.timestamp_ms) := by
      rw [List.pairwise_append]
      refine ⟨hpob, List.pairwise_singleton _ _, ?_⟩
      intro a ha b hb
      rw [List.mem_singleton] at hb
      subst hb
      exact hob a ha
    refine ⟨?_, ?_, ?_, ?_⟩
    · intro ob hmem
      rw [ho] at hmem
      exact dropWhile_lt_mem_ge (fun ob : OrderbookSnapshot => ob.timestamp_ms) _ _ hpall ob hmem
    · intro tr hmem
      rw [ht] at hmem
      exact dropWhile_lt_mem_ge (fun tr : TradeEvent => tr.timestamp_ms) _ _ hptr tr hmem
    · rw [ho]
      exact dropWhile_lt_eq_filter (fun ob : OrderbookSnapshot => ob.timestamp_ms) _ _ hpall
    · rw [ht]
      exact dropWhile_lt_eq_filter (fun tr : TradeEvent => tr.timestamp_ms) _ _ hptr
  · intro w trade hpob hptr htr hend
    obtain ⟨ho, ht⟩ := add_trade_components w trade hend
    have hpall : (w.trades ++ [trade]).Pairwise
        (fun a b => a.timestamp_ms ≤ b.timestamp_ms) := by
      rw [List.pairwise_append]
      refine ⟨hptr, List.pairwise_singleton _ _, ?_⟩
      intro a ha b hb
      rw [List.mem_singleton] at hb
      subst hb
      exact htr a ha
    refine ⟨?_, ?_, ?_, ?_⟩
    · intro ob hmem
      rw [ho] at hmem
      exact dropWhile_lt_mem_ge (fun ob : OrderbookSnapshot => ob.timestamp_ms) _ _ hpob ob hmem
    · intro tr hmem
      rw [ht] at hmem
      exact dropWhile_lt_mem_ge (fun tr : TradeEvent => tr.timestamp_ms) _ _ hpall tr hmem
    · rw [ho]
      exact dropWhile_lt_eq_filter (fun ob : OrderbookSnapshot => ob.timestamp_ms) _ _ hpob
    · rw [ht]
      exact dropWhile_lt_eq_filter (fun tr : TradeEvent => tr.timestamp_ms) _ _ hpall

/-- Evaluation of the out-of-order append scenario: the stale snapshot
at t=5000 ms stays in the deque and the end bound stays 10000 ms. -/
theorem c10Window_eval :
    c10Window =
      { orderbooks := [mkSnapshot 10000, mkSnapshot 5000], trades := [],
        window_duration_sec := 1, start_time := some 10000,
        end_time := some 10000 } := by
  have hfloor : i64OfRat (1000 : ℚ) = 1000 := by norm_num [i64OfRat]
  simp [c10Window, add_orderbook, update_time_bounds, trim_to_window,
    RollingWindow.new, mkSnapshot, hfloor]

/-- C10 (counterexample): appending a snapshot with timestamp 5000 ms to
a 1-second window whose end bound is 10000 ms keeps the snapshot even
though it is strictly older than `end_time − window_duration`
(5000 < 10000 − 1000): the per-append trim invariant fails for
non-chronological appends. -/
theorem c10_counterexample_out_of_order_append :
    c10Window.end_time = some 10000 ∧
    mkSnapshot 5000 ∈ c10Window.orderbooks ∧
    (mkSnapshot 5000).timestamp_ms <
      10000 - i64OfRat (c10Window.window_duration_sec * 1000) := by
  rw [c10Window_eval]
  refine ⟨rfl, by simp, ?_⟩
  norm_num [i64OfRat, mkSnapshot]

/-- Evaluation of the chronological one-element window. -/
theorem c10ChronoWindow_eval :
    c10ChronoWindow =
      { orderbooks := [mkSnapshot 1000], trades := [],
        window_duration_sec := 1, start_time := some 1000,
        end_time := some 1000 } := by
  have hfloor : i64OfRat (1000 : ℚ) = 1000 := by norm_num [i64OfRat]
  simp [c10ChronoWindow, add_orderbook, update_time_bounds, trim_to_window,
    RollingWindow.new, mkSnapshot, hfloor]

/-- C10 (witness): the trim invariant applied to a chronological
orderbook append and a chronological trade append (each at t=1500 ms
onto a window holding a snapshot at t=1000 ms). -/
theorem c10_amended_window_trim_witness :
    ((∀ ob ∈ (add_orderbook c10ChronoWindow (mkSnapshot 1500)).orderbooks,
      (mkSnapshot 1500).timestamp_ms -
        i64OfRat (c10ChronoWindow.window_duration_sec * 1000) ≤
          ob.timestamp_ms) ∧
    (∀ tr ∈ (add_orderbook c10ChronoWindow (mkSnapshot 1500)).trades,
      (mkSnapshot 1500).timestamp_ms -
        i64OfRat (c10ChronoWindow.window_duration_sec * 1000) ≤
          tr.timestamp_ms) ∧
    (add_orderbook c10ChronoWindow (mkSnapshot 1500)).orderbooks =
      (c10ChronoWindow.orderbooks ++ [mkSnapshot 1500]).filter
        (fun ob =>
          (mkSnapshot 1500).timestamp_ms -
            i64OfRat (c10ChronoWindow.window_duration_sec * 1000) ≤
              ob.timestamp_ms) ∧
    (add_orderbook c10ChronoWindow (mkSnapshot 1500)).trades =
      c10ChronoWindow.trades.filter
        (fun tr =>
          (mkSnapshot 1500).timestamp_ms -
            i64OfRat (c10ChronoWindow.window_duration_sec * 1000) ≤
              tr.timestamp_ms)) ∧
    ((∀ ob ∈ (add_trade c10ChronoWindow (mkTrade 1500)).orderbooks,
      (mkTrade 1500).timestamp_ms -
        i64OfRat (c10ChronoWindow.window_duration_sec * 1000) ≤
          ob.timestamp_ms) ∧
    (∀ tr ∈ (add_trade c10ChronoWindow (mkTrade 1500)).trades,
      (mkTrade 1500).timestamp_ms -
        i64OfRat (c10ChronoWindow.window_duration_sec * 1000) ≤
          tr.timestamp_ms) ∧
    (add_trade c10ChronoWindow (mkTrade 1500)).orderbooks =
      c10ChronoWindow.orderbooks.filter
        (fun ob =>
          (mkTrade 1500).timestamp_ms -
            i64OfRat (c10ChronoWindow.window_duration_sec * 1000) ≤
              ob.timestamp_ms) ∧
    (add_trade c10ChronoWindow (mkTrade 1500)).trades =
      (c10ChronoWindow.trades ++ [mkTrade 1500]).filter
        (fun tr =>
          (mkTrade 1500).timestamp_ms -
            i64OfRat (c10ChronoWindow.window_duration_sec * 1000) ≤
              tr.timestamp_ms)) :=
  ⟨c10_amended_window_trim.2.2.1 c10ChronoWindow (mkSnapshot 1500)
    (by rw [c10ChronoWindow_eval]; simp)
    (by rw [c10ChronoWindow_eval]; simp)
    (by rw [c10ChronoWindow_eval]; norm_num [mkSnapshot])
    (by rw [c10ChronoWindow_eval]; norm_num [mkSnapshot]),
   c10_amended_window_trim.2.2.2 c10ChronoWindow (mkTrade 1500)
    (by rw [c10ChronoWindow_eval]; simp)
    (by rw [c10ChronoWindow_eval]; simp)
    (by rw [c10ChronoWindow_eval]; simp)
    (by rw [c10ChronoWindow_eval]; norm_num [mkTrade])⟩

/-- C3: for `tick_size > 0`, `build_quotes_with_ticks` returns the bid
rounded down and the ask rounded up to the tick grid, except that an ask
at or below the bid becomes `bid + tick_size`; in all cases the returned
bid is strictly below the returned ask. -/
theorem c3_build_quotes_tick_snapping (r h τ : ℝ) (hτ : 0 < τ) :
    build_quotes_with_ticks r h τ =
      (if (⌈(r + h) / τ⌉ : ℝ) * τ ≤ (⌊(r - h) / τ⌋ : ℝ) * τ then
        ((⌊(r - h) / τ⌋ : ℝ) * τ, (⌊(r - h) / τ⌋ : ℝ) * τ + τ)
      else ((⌊(r - h) / τ⌋ : ℝ) * τ, (⌈(r + h) / τ⌉ : ℝ) * τ)) ∧
    (build_quotes_with_ticks r h τ).1 < (build_quotes_with_ticks r h τ).2 := by
  have hτ' : ¬ τ ≤ 0 := not_le.mpr hτ
  by_cases hc : (⌈(r + h) / τ⌉ : ℝ) * τ ≤ (⌊(r - h) / τ⌋ : ℝ) * τ
  · constructor
    · simp [build_quotes_with_ticks, snap_price_to_ticks, hτ', hc]
    · simp [build_quotes_with_ticks, snap_price_to_ticks, hτ', hc]
      linarith
  · constructor
    · simp [build_quotes_with_ticks, snap_price_to_ticks, hτ', hc]
    · simp [build_quotes_with_ticks, snap_price_to_ticks, hτ', hc]
      linarith [not_le.mp hc]

/-- C3 (witness): the scenario 3 quote build around reservation 100 with
half-spread 0.1175 and tick 0.01 produces a bid strictly below the ask. -/
theorem c3_build_quotes_tick_snapping_witness :
    (0:ℝ) < 1/100 ∧
    (build_quotes_with_ticks (100:ℝ) (47/400) (1/100)).1 <
      (build_quotes_with_ticks (100:ℝ) (47/400) (1/100)).2 :=
  ⟨by norm_num,
   (c3_build_quotes_tick_snapping 100 (47/400) (1/100) (by norm_num)).2⟩

/-- C4: for γ > 0, κ > 0, σ ≥ 0, T ≥ 0, the half-spread equals the A–S
closed form `(1/γ)·ln(1 + γ/κ) + 0.5·γ·σ²·T`, is non-negative, and is
monotone non-decreasing in the horizon `T`. -/
theorem c4_half_spread_formula (γ k σ T : ℝ)
    (hγ : 0 < γ) (hk : 0 < k) (_hσ : 0 ≤ σ) (hT : 0 ≤ T) :
    compute_optimal_half_spread γ k σ T =
      1 / γ * Real.log (1 + γ / k) + 0.5 * γ * σ ^ 2 * T ∧
    0 ≤ compute_optimal_half_spread γ k σ T ∧
    ∀ T2, T ≤ T2 →
      compute_optimal_half_spread γ k σ T ≤ compute_optimal_half_spread γ k σ T2 := by
  have hguard : ¬ (γ ≤ 0 ∨ k ≤ 0) := by
    push_neg
    exact ⟨hγ, hk⟩
  have heq : ∀ T3 : ℝ, compute_optimal_half_spread γ k σ T3 =
      1 / γ * Real.log (1 + γ / k) + 0.5 * γ * σ ^ 2 * T3 := by
    intro T3
    simp [compute_optimal_half_spread, hguard]
  have hlog : 0 ≤ Real.log (1 + γ / k) :=
    Real.log_nonneg (by linarith [le_of_lt (div_pos hγ hk)])
  refine ⟨heq T, ?_, ?_⟩
  · rw [heq T]
    have h1 : 0 ≤ 1 / γ * Real.log (1 + γ / k) := mul_nonneg (by positivity) hlog
    have h2 : 0 ≤ 0.5 * γ * σ ^ 2 * T := by positivity
    linarith
  · intro T2 h2
    rw [heq T, heq T2]
    have h3 : (0:ℝ) ≤ 0.5 * γ * σ ^ 2 := by positivity
    have := mul_le_mul_of_nonneg_left h2 h3
    linarith

/-- C4 (witness): the formula, non-negativity and monotonicity at
γ = κ = 1, σ = 0, horizons 0 and 1. -/
theorem c4_half_spread_formula_witness :
    compute_optimal_half_spread 1 1 0 0 =
      1 / 1 * Real.log (1 + 1 / 1) + 0.5 * 1 * 0 ^ 2 * 0 ∧
    0 ≤ compute_optimal_half_spread 1 1 0 0 ∧
    compute_optimal_half_spread 1 1 0 0 ≤ compute_optimal_half_spread 1 1 0 1 := by
  obtain ⟨h1, h2, h3⟩ :=
    c4_half_spread_formula 1 1 0 0 (by norm_num) (by norm_num) le_rfl le_rfl
  exact ⟨h1, h2, h3 1 (by norm_num)⟩

/-- The gamma-doubling loop only ever doubles the starting gamma: the
value it returns is `2 ^ n` times the configured gamma for some `n`. -/
theorem adjust_gamma_pow (params : MarketParameters) (T m minS : ℝ) :
    ∀ (fuel : ℕ) (γ : ℝ), ∃ n : ℕ,
      adjust_gamma params T m minS fuel γ = 2 ^ n * γ := by
  intro fuel
  induction fuel with
  | zero =>
    intro γ
    exact ⟨0, by simp [adjust_gamma]⟩
  | succ k ih =>
    intro γ
    by_cases hc : half_spread_for params γ T m < minS ∧ γ < 1
    · obtain ⟨n, hn⟩ := ih (2 * γ)
      refine ⟨n + 1, ?_⟩
      simp only [adjust_gamma, if_pos hc]
      rw [hn]
      ring
    · refine ⟨0, ?_⟩
      simp only [adjust_gamma, if_neg hc]
      ring

/-- With enough fuel (any `fuel` with `1 ≤ 2 ^ fuel * γ`), the
gamma-doubling loop stops only when the half-spread meets the floor or
gamma has reached the cap `1.0`. -/
theorem adjust_gamma_exit (params : MarketParameters) (T m minS : ℝ) :
    ∀ (fuel : ℕ) (γ : ℝ), 1 ≤ 2 ^ fuel * γ →
      minS ≤ half_spread_for params (adjust_gamma params T m minS fuel γ) T m ∨
      1 ≤ adjust_gamma params T m minS fuel γ := by
  intro fuel
  induction fuel with
  | zero =>
    intro γ hγ
    right
    simpa [adjust_gamma] using hγ
  | succ k ih =>
    intro γ hγ
    by_cases hc : half_spread_for params γ T m < minS ∧ γ < 1
    · have h2 : (1:ℝ) ≤ 2 ^ k * (2 * γ) := by
        calc (1:ℝ) ≤ 2 ^ (k + 1) * γ := hγ
        _ = 2 ^ k * (2 * γ) := by ring
      have h3 := ih (2 * γ) h2
      simpa only [adjust_gamma, if_pos hc] using h3
    · have hd : minS ≤ half_spread_for params γ T m ∨ 1 ≤ γ := by
        rcases not_and_or.mp hc with h | h
        · exact Or.inl (not_lt.mp h)
        · exact Or.inr (not_lt.mp h)
      simpa only [adjust_gamma, if_neg hc] using hd

/-- C2: any `SpreadState` published by a spread-calculation tick with
positive configured gamma, positive mid and positive `min_spread_bps`
(and enough loop fuel) records as `gamma_used` the gamma of the final
calculation (a power-of-two multiple of the configured gamma), its
`half_spread` is the A–S half-spread at `gamma_used`, and either that
half-spread meets the floor `m · min_spread_bps / 10000` or gamma was
doubled until it reached at least `1.0`. -/
theorem c2_minimum_spread_floor (params : MarketParameters)
    (gamma0 T m msb τ : ℝ) (fuel : ℕ) (st : SpreadState)
    (_hγ : 0 < gamma0) (_hm : 0 < m) (_hmsb : 0 < msb)
    (hfuel : 1 ≤ 2 ^ fuel * gamma0)
    (hres : calculate_spreads_core params gamma0 T m msb τ fuel = some st) :
    (∃ n : ℕ, st.gamma_used = 2 ^ n * gamma0) ∧
    st.half_spread =
      compute_optimal_half_spread st.gamma_used params.trading_intensity
        params.volatility T ∧
    (m * msb / 10000 ≤ st.half_spread ∨ 1 ≤ st.gamma_used) := by
  simp only [calculate_spreads_core] at hres
  split at hres
  · exact absurd hres (by simp)
  · split at hres
    · exact absurd hres (by simp)
    · injection hres with hres
      subst hres
      refine ⟨?_, ?_, ?_⟩
      · obtain ⟨n, hn⟩ :=
          adjust_gamma_pow params T m (m * (msb / 10000)) fuel gamma0
        exact ⟨n, hn⟩
      · show (_ + _) / 2 = _
        simp only [compute_spread_for_gamma]
        ring
      · have hexit :=
          adjust_gamma_exit params T m (m * (msb / 10000)) fuel gamma0 hfuel
        rcases hexit with h | h
        · left
          have e1 : m * msb / 10000 = m * (msb / 10000) := by ring
          rw [e1]
          exact h
        · right
          exact h

/-- Evaluation of one concrete tick: with κ = 0 the A–S half-spread
early-returns 0, the snapped quotes collapse and the ask is bumped one
tick, so the tick publishes bid 100, ask 101, gamma 1. -/
theorem calculate_spreads_core_example :
    calculate_spreads_core c2Params 1 0 100 5 1 0 = some c2SpreadState := by
  simp only [calculate_spreads_core, adjust_gamma, compute_spread_for_gamma,
    compute_reservation_price, compute_optimal_half_spread, half_spread_for,
    build_quotes_with_ticks, snap_price_to_ticks, c2Params, c2SpreadState]
  norm_num

/-- C2 (witness): the floor disjunction instantiated at the concrete
tick of `calculate_spreads_core_example`. -/
theorem c2_minimum_spread_floor_witness :
    (∃ n : ℕ, c2SpreadState.gamma_used = 2 ^ n * 1) ∧
    c2SpreadState.half_spread =
      compute_optimal_half_spread c2SpreadState.gamma_used
        c2Params.trading_intensity c2Params.volatility 0 ∧
    ((100:ℝ) * 5 / 10000 ≤ c2SpreadState.half_spread ∨
      1 ≤ c2SpreadState.gamma_used) :=
  c2_minimum_spread_floor c2Params 1 0 100 5 1 0 c2SpreadState (by norm_num)
    (by norm_num) (by norm_num) (by norm_num) calculate_spreads_core_example
